import Mathlib

/-!
Verification of the authentication validators of the homepage repository
(`src/be/src/middlewares/users.middlewares.ts`), against the repository's
natural-language specification.

The validators themselves are translated directly from
`users.middlewares.ts`.  The pieces the middlewares import but that are not
part of the backend sources here (the JWT utility, the password hash, the
MongoDB collections, the express-validator checks and the `validate`
wrapper) are modelled from the specification, each marked as such in its
doc comment.
-/

/-! ## Token kinds and payloads (`models/requests/Users.requests.ts`) -/

/-- The token-kind enum (`TokenType` from `constants/enum`): access, refresh,
email-verify and forgot-password tokens. -/
inductive TokenType where
  | AccessToken
  | RefreshToken
  | EmailVerifyToken
  | ForgotPasswordToken
deriving DecidableEq, Repr

/-- `TokenPayload` (`models/requests/Users.requests.ts`): the subject user id
and the token-kind tag carried inside every signed token. -/
structure TokenPayload where
  user_id : String
  token_type : TokenType
deriving DecidableEq, Repr

/-! ## String helpers mirroring the JavaScript string operations -/

/-- JavaScript `String.prototype.split(sep)` on a list of characters:
splits at every occurrence of `sep`, keeping empty pieces, so
`"a  b".split(" ")` is `["a", "", "b"]` and `"".split(" ")` is `[""]`. -/
def splitList (sep : Char) : List Char → List (List Char)
  | [] => [[]]
  | c :: cs =>
    let r := splitList sep cs
    if c = sep then [] :: r
    else
      match r with
      | [] => [[c]]
      | h :: t => (c :: h) :: t

/-- JavaScript `s.split(sep)` for a one-character separator. -/
def splitOnChar (sep : Char) (s : String) : List String :=
  (splitList sep s.data).map (fun l => ⟨l⟩)

/-- Strip whitespace from both ends of a character list. -/
def trimChars (l : List Char) : List Char :=
  ((l.dropWhile Char.isWhitespace).reverse.dropWhile Char.isWhitespace).reverse

/-- JavaScript `String.prototype.trim` / express-validator's `trim: true`
sanitizer: remove leading and trailing whitespace. -/
def jsTrim (s : String) : String :=
  ⟨trimChars s.data⟩

/-! ## The token codec -/

/-- The error cases of the JWT library's `verify` (`JsonWebTokenError`):
a token whose signature does not match the given secret, or a string that
is not a well-formed token at all. -/
inductive JwtError where
  | invalidSignature
  | malformed
deriving DecidableEq, Repr

/-- Printed form of a token kind, embedded in the signed token string. -/
def tokenTypeTag : TokenType → String
  | .AccessToken => "AccessToken"
  | .RefreshToken => "RefreshToken"
  | .EmailVerifyToken => "EmailVerifyToken"
  | .ForgotPasswordToken => "ForgotPasswordToken"

/-- Inverse of `tokenTypeTag`. -/
def parseTokenType (s : String) : Option TokenType :=
  if s = "AccessToken" then some .AccessToken
  else if s = "RefreshToken" then some .RefreshToken
  else if s = "EmailVerifyToken" then some .EmailVerifyToken
  else if s = "ForgotPasswordToken" then some .ForgotPasswordToken
  else none

/-- Structural parse of a token string into (subject, kind tag, signature
part), independent of any secret. -/
def parseJwt (token : String) : Option (String × String × String) :=
  match splitOnChar '.' token with
  | [hd, uid, tag, sig] => if hd = "jwt" then some (uid, tag, sig) else none
  | _ => none

/-- Modelled from the spec: the TokenCodec's `verify` (`utils/jwt`, not under
the backend sources here).  §4.1: `verify(token string, secret) ->
TokenPayload`, failing with a `JsonWebTokenError` when the token is
malformed or its signature was not produced under the given secret; "Each
token kind uses a distinct signing secret so a token minted for one purpose
cannot be verified successfully against another kind's secret". -/
def verifyToken (token : String) (secret : String) : Except JwtError TokenPayload :=
  match parseJwt token with
  | none => .error .malformed
  | some (uid, tag, sig) =>
    match parseTokenType tag with
    | none => .error .malformed
    | some ty =>
      if sig = "sig=" ++ secret then .ok ⟨uid, ty⟩ else .error .invalidSignature

/-- Modelled from the spec: the TokenCodec's `issue` (`utils/jwt` `signToken`,
not under the backend sources here): mints a token string carrying the
payload, signed under the given secret. -/
def signToken (p : TokenPayload) (secret : String) : String :=
  "jwt." ++ p.user_id ++ "." ++ tokenTypeTag p.token_type ++ ".sig=" ++ secret

/-! ## Error messages and statuses (`constants/messages`, `constants/httpStatus`) -/

/-- The `USERS_MESSAGES` constants referenced by `users.middlewares.ts`
(the constants module itself is not under the backend sources here; the
names are taken verbatim from their use sites in the middleware file). -/
inductive UsersMessage where
  | EMAIL_INVALID
  | EMAIL_IS_REQUIRED
  | EMAIL_OR_PASSWORD_INCORRECT
  | EMAIL_ALREADY_EXISTS
  | NAME_IS_REQUIRED
  | NAME_LENGTH
  | PASSWORD_IS_REQUIRED
  | PASSWORD_LENGTH
  | PASSWORD_MUST_BE_STRONG
  | CONFIRM_PASSWORD_IS_REQUIRED
  | CONFIRM_PASSWORD_LENGTH
  | CONFIRM_PASSWORD_MUST_BE_STRONG
  | CONFIRM_PASSWORD_NOT_MATCH
  | DATE_OF_BIRTH_MUST_BE_ISO8061
  | ACCESS_TOKEN_IS_REQUIRED
  | REFRESH_TOKEN_IS_REQUIRED
  | REFRESH_TOKEN_INVALID
  | REFRESH_TOKEN_IS_USED_OR_NOT_EXIST
  | EMAIL_VERIFY_TOKEN_IS_REQUIRED
  | FORGOT_PASSWORD_TOKEN_IS_REQUIRED
  | FORGOT_PASSWORD_TOKEN_IS_INVALID
  | USER_NOT_FOUND
deriving DecidableEq, Repr

/-- A rejection message: either one of the `USERS_MESSAGES` constants or, for
`accessTokenValidator`'s catch branch, the JWT library's own error message
(`(error as JsonWebTokenError).message`). -/
inductive ErrMsg where
  | msg (m : UsersMessage)
  | jwtError (e : JwtError)
deriving DecidableEq, Repr

namespace HTTP_STATUS

/-- `HTTP_STATUS.UNAUTHORIZED`. -/
def UNAUTHORIZED : Nat := 401

/-- `HTTP_STATUS.UNPROCESSABLE_ENTITY`, used by the `validate` wrapper for
plain field-level validation errors. -/
def UNPROCESSABLE_ENTITY : Nat := 422

end HTTP_STATUS

/-- `ErrorWithStatus` (`models/Errors`): a message together with an HTTP
status.  Plain `Error`s thrown inside a schema check reach the client as
a 422 validation error, so they are represented here with status 422. -/
structure ErrorWithStatus where
  message : ErrMsg
  status : Nat
deriving DecidableEq, Repr

/-! ## The credential store (spec §3, §4.2) -/

/-- Modelled from the spec: a `User` record of the CredentialStore (the
User schema is not under the backend sources here).  Spec §3: identifier,
name, email, password hash, date of birth, verification status, the
nullable `email_verify_token` and `forgot_password_token` (the empty string
standing for a cleared token, as in the source's string comparisons). -/
structure User where
  _id : String
  name : String
  email : String
  password : String
  date_of_birth : String
  email_verify_token : String
  forgot_password_token : String
deriving DecidableEq, Repr

/-- Modelled from the spec: a persisted `RefreshToken` record (§3): the
token string and the owning user's identifier. -/
structure RefreshTokenRec where
  token : String
  user_id : String
deriving DecidableEq, Repr

/-- Modelled from the spec: the CredentialStore state (§4.2) — the `users`
and `refreshTokens` collections of `database.services`, queried by the
middlewares only through exact-match `findOne`. -/
structure Database where
  users : List User
  refreshTokens : List RefreshTokenRec
deriving DecidableEq, Repr

/-- `databaseService.users.findOne(filter)`: first record matching the
exact-match filter, or `none`. -/
def Database.findOneUser (db : Database) (p : User → Bool) : Option User :=
  db.users.find? p

/-- `databaseService.refreshTokens.findOne(filter)`. -/
def Database.findOneRefreshToken (db : Database) (p : RefreshTokenRec → Bool) :
    Option RefreshTokenRec :=
  db.refreshTokens.find? p

/-- The signing secrets read from `process.env` (spec §4.1: one distinct
secret per token kind; §9: configuration constructed at process start). -/
structure Env where
  JWT_SECRET_ACCESS_TOKEN : String
  JWT_SECRET_REFRESH_TOKEN : String
  JWT_SECRET_EMAIL_VERIFY_TOKEN : String
  JWT_SECRET_FORGOT_PASSWORD_TOKEN : String
deriving DecidableEq, Repr

/-! ## Field checks modelled from express-validator

The express-validator checks (`isEmail`, `notEmpty`, `isLength`,
`isStrongPassword`, `isISO8601`) are a third-party library consumed through
a narrow interface (spec §1); they are modelled here by executable
predicates with the documented meaning.  `isString` always holds because
fields are embedded as strings. -/

/-- Modelled from the spec: the `isEmail` format check — one `@`, a
nonempty local part, and a domain of at least two nonempty dot-separated
labels.  Its exact boundary is immaterial to the claims below; only that
it is a fixed syntactic predicate matters. -/
def isEmailFormat (s : String) : Bool :=
  match splitOnChar '@' s with
  | [l, d] =>
    l ≠ "" && (splitOnChar '.' d).length ≥ 2 && (splitOnChar '.' d).all (· ≠ "")
  | _ => false

/-- A character counted as a symbol by `isStrongPassword` (not
alphanumeric). -/
def isSymbolChar (c : Char) : Bool :=
  !c.isAlphanum

/-- Modelled from the spec: `isStrongPassword` with the options used in the
middleware file — `minLength: 6` and at least one lowercase letter, one
uppercase letter, one digit and one symbol. -/
def isStrongPassword (s : String) : Bool :=
  s.length ≥ 6 && s.data.any Char.isLower && s.data.any Char.isUpper &&
    s.data.any Char.isDigit && s.data.any isSymbolChar

/-- Modelled from the spec: the strict `isISO8601` date check, in the
`YYYY-MM-DD` shape used by the registration examples (§8).  Its exact
boundary is immaterial to the claims below. -/
def isISO8601Date (s : String) : Bool :=
  match splitOnChar '-' s with
  | [y, m, d] =>
    y.length = 4 && m.length = 2 && d.length = 2 &&
      y.data.all Char.isDigit && m.data.all Char.isDigit && d.data.all Char.isDigit
  | _ => false

/-- Modelled from the spec: `hashPassword` (`utils/crypto`, not under the
backend sources here): a deterministic one-way hash; records store only
`hashPassword p`, never `p` itself (§3). -/
def hashPassword (s : String) : String :=
  "sha256:" ++ s

/-! ## The validation pipeline

Each middleware is embedded as a state-passing function on the store: it
returns the outcome of `validate(checkSchema(...))` together with the store
it leaves behind.  Modelled from the spec for the `validate` wrapper
(`utils/validation`, not under the backend sources here), §4.4: "checks run
in declaration order and the pipeline stops at the first failing field,
returning a structured error keyed by field name"; store-dependent checks
run before the handler.  Fields are checked in their declaration order in
`checkSchema`, and within a field the declared checks run in order, the
first failure giving the field's error. -/

/-- The outcome of running one validator middleware against a store state:
`ok` with the value attached to the request context, or the structured
error, paired with the store state after the run. -/
def Validator (α : Type) : Type :=
  Database → Except ErrorWithStatus α × Database

/-- `loginValidator` (`users.middlewares.ts` lines 14–67).  Email field:
`isEmail`, `notEmpty`, `trim`, then the custom credential check
`users.findOne({email: value, password: hashPassword(req.body.password)})`,
throwing `EMAIL_OR_PASSWORD_INCORRECT` when no record matches and attaching
the user otherwise.  Password field: `isString`, `notEmpty`,
`isLength {min: 6, max: 50}`, `isStrongPassword`. -/
def loginValidator (email password : String) : Validator User := fun db =>
  if ¬ isEmailFormat email then
    (.error ⟨.msg .EMAIL_INVALID, HTTP_STATUS.UNPROCESSABLE_ENTITY⟩, db)
  else if email = "" then
    (.error ⟨.msg .EMAIL_IS_REQUIRED, HTTP_STATUS.UNPROCESSABLE_ENTITY⟩, db)
  else
    match db.findOneUser
        (fun u => u.email == jsTrim email && u.password == hashPassword password) with
    | none =>
      (.error ⟨.msg .EMAIL_OR_PASSWORD_INCORRECT, HTTP_STATUS.UNPROCESSABLE_ENTITY⟩, db)
    | some user =>
      if password = "" then
        (.error ⟨.msg .PASSWORD_IS_REQUIRED, HTTP_STATUS.UNPROCESSABLE_ENTITY⟩, db)
      else if ¬ (6 ≤ password.length ∧ password.length ≤ 50) then
        (.error ⟨.msg .PASSWORD_LENGTH, HTTP_STATUS.UNPROCESSABLE_ENTITY⟩, db)
      else if ¬ isStrongPassword password then
        (.error ⟨.msg .PASSWORD_MUST_BE_STRONG, HTTP_STATUS.UNPROCESSABLE_ENTITY⟩, db)
      else (.ok user, db)

/-- `registerValidator` (`users.middlewares.ts` lines 69–176).  Fields in
declaration order: name (`isString`, `notEmpty`, `isLength {1, 100}`),
email (`isEmail`, `notEmpty`, `trim`, custom `userService.checkEmailExist`
throwing `EMAIL_ALREADY_EXISTS`), password, confirm_password (the same
checks as password plus the cross-field equality custom), date_of_birth
(`isISO8601` strict).  `checkEmailExist` is modelled from the spec (§4.2
`findUserByEmail`, exact match): it holds exactly when some stored user has
the given email. -/
def registerValidator (name email password confirm_password date_of_birth : String) :
    Validator Unit := fun db =>
  if name = "" then
    (.error ⟨.msg .NAME_IS_REQUIRED, HTTP_STATUS.UNPROCESSABLE_ENTITY⟩, db)
  else if ¬ (1 ≤ name.length ∧ name.length ≤ 100) then
    (.error ⟨.msg .NAME_LENGTH, HTTP_STATUS.UNPROCESSABLE_ENTITY⟩, db)
  else if ¬ isEmailFormat email then
    (.error ⟨.msg .EMAIL_INVALID, HTTP_STATUS.UNPROCESSABLE_ENTITY⟩, db)
  else if email = "" then
    (.error ⟨.msg .EMAIL_IS_REQUIRED, HTTP_STATUS.UNPROCESSABLE_ENTITY⟩, db)
  else if db.users.any (fun u => u.email == jsTrim email) then
    (.error ⟨.msg .EMAIL_ALREADY_EXISTS, HTTP_STATUS.UNPROCESSABLE_ENTITY⟩, db)
  else if password = "" then
    (.error ⟨.msg .PASSWORD_IS_REQUIRED, HTTP_STATUS.UNPROCESSABLE_ENTITY⟩, db)
  else if ¬ (6 ≤ password.length ∧ password.length ≤ 50) then
    (.error ⟨.msg .PASSWORD_LENGTH, HTTP_STATUS.UNPROCESSABLE_ENTITY⟩, db)
  else if ¬ isStrongPassword password then
    (.error ⟨.msg .PASSWORD_MUST_BE_STRONG, HTTP_STATUS.UNPROCESSABLE_ENTITY⟩, db)
  else if confirm_password = "" then
    (.error ⟨.msg .CONFIRM_PASSWORD_IS_REQUIRED, HTTP_STATUS.UNPROCESSABLE_ENTITY⟩, db)
  else if ¬ (6 ≤ confirm_password.length ∧ confirm_password.length ≤ 50) then
    (.error ⟨.msg .CONFIRM_PASSWORD_LENGTH, HTTP_STATUS.UNPROCESSABLE_ENTITY⟩, db)
  else if ¬ isStrongPassword confirm_password then
    (.error ⟨.msg .CONFIRM_PASSWORD_MUST_BE_STRONG, HTTP_STATUS.UNPROCESSABLE_ENTITY⟩, db)
  else if confirm_password ≠ password then
    (.error ⟨.msg .CONFIRM_PASSWORD_NOT_MATCH, HTTP_STATUS.UNPROCESSABLE_ENTITY⟩, db)
  else if ¬ isISO8601Date date_of_birth then
    (.error ⟨.msg .DATE_OF_BIRTH_MUST_BE_ISO8061, HTTP_STATUS.UNPROCESSABLE_ENTITY⟩, db)
  else (.ok (), db)

/-- The credential the access-token middleware attempts: line 185,
`(value || "").split(" ")[1]` applied to the trimmed `Authorization`
header (`trim: true` sanitizer), with a missing element read as the empty
string (both `undefined` and `""` are falsy at line 186). -/
def authCredential (value : String) : String :=
  (splitOnChar ' ' (jsTrim value)).getD 1 ""

/-- `accessTokenValidator` (`users.middlewares.ts` lines 178–212): takes the
second space-separated chunk of the trimmed `Authorization` header; if that
chunk is absent or empty it throws `ACCESS_TOKEN_IS_REQUIRED` at 401;
otherwise it verifies the chunk against `JWT_SECRET_ACCESS_TOKEN`,
re-throwing any `JsonWebTokenError` as that error's own message at 401, and
on success attaches the decoded payload to the request context.  It touches
the store not at all. -/
def accessTokenValidator (env : Env) (value : String) : Validator TokenPayload :=
  fun db =>
  let access_token := authCredential value
  if access_token = "" then
    (.error ⟨.msg .ACCESS_TOKEN_IS_REQUIRED, HTTP_STATUS.UNAUTHORIZED⟩, db)
  else
    match verifyToken access_token env.JWT_SECRET_ACCESS_TOKEN with
    | .error e => (.error ⟨.jwtError e, HTTP_STATUS.UNAUTHORIZED⟩, db)
    | .ok d => (.ok d, db)

/-- `refreshTokenValidator` (`users.middlewares.ts` lines 214–258): a missing
or empty (trimmed) `refresh_token` throws `REFRESH_TOKEN_IS_REQUIRED` at
401; otherwise `Promise.all` runs the cryptographic verification under
`JWT_SECRET_REFRESH_TOKEN` and the store lookup
`refreshTokens.findOne({token: value})`.  A `JsonWebTokenError` from the
verification rejects the `Promise.all` and is mapped to
`REFRESH_TOKEN_INVALID` at 401; a `null` lookup throws
`REFRESH_TOKEN_IS_USED_OR_NOT_EXIST` at 401 (an `ErrorWithStatus`, so the
catch re-throws it unchanged); otherwise the decoded payload is attached. -/
def refreshTokenValidator (env : Env) (value : String) : Validator TokenPayload :=
  fun db =>
  let v := jsTrim value
  if v = "" then
    (.error ⟨.msg .REFRESH_TOKEN_IS_REQUIRED, HTTP_STATUS.UNAUTHORIZED⟩, db)
  else
    match verifyToken v env.JWT_SECRET_REFRESH_TOKEN with
    | .error _ => (.error ⟨.msg .REFRESH_TOKEN_INVALID, HTTP_STATUS.UNAUTHORIZED⟩, db)
    | .ok d =>
      match db.findOneRefreshToken (fun r => r.token == v) with
      | none =>
        (.error ⟨.msg .REFRESH_TOKEN_IS_USED_OR_NOT_EXIST, HTTP_STATUS.UNAUTHORIZED⟩, db)
      | some _ => (.ok d, db)

/-- `emailVerifyTokenValidator` (`users.middlewares.ts` lines 260–297): a
missing or empty (trimmed) `email_verify_token` throws
`EMAIL_VERIFY_TOKEN_IS_REQUIRED` at 401; otherwise the token is verified
under `JWT_SECRET_EMAIL_VERIFY_TOKEN` and the payload attached.  The catch
branch at line 284 maps a `JsonWebTokenError` to
`USERS_MESSAGES.REFRESH_TOKEN_INVALID` at 401 — the refresh-flow message,
reproduced here exactly as the source has it. -/
def emailVerifyTokenValidator (env : Env) (value : String) : Validator TokenPayload :=
  fun db =>
  let v := jsTrim value
  if v = "" then
    (.error ⟨.msg .EMAIL_VERIFY_TOKEN_IS_REQUIRED, HTTP_STATUS.UNAUTHORIZED⟩, db)
  else
    match verifyToken v env.JWT_SECRET_EMAIL_VERIFY_TOKEN with
    | .error _ => (.error ⟨.msg .REFRESH_TOKEN_INVALID, HTTP_STATUS.UNAUTHORIZED⟩, db)
    | .ok d => (.ok d, db)

/-- `forgotPassWordValidator` (`users.middlewares.ts` lines 299–326): email
field `isEmail`, `notEmpty`, `trim`, then the custom lookup
`users.findOne({email: value})`, throwing a plain `USER_NOT_FOUND` when no
user has the email and attaching the user otherwise. -/
def forgotPassWordValidator (email : String) : Validator User := fun db =>
  if ¬ isEmailFormat email then
    (.error ⟨.msg .EMAIL_INVALID, HTTP_STATUS.UNPROCESSABLE_ENTITY⟩, db)
  else if email = "" then
    (.error ⟨.msg .EMAIL_IS_REQUIRED, HTTP_STATUS.UNPROCESSABLE_ENTITY⟩, db)
  else
    match db.findOneUser (fun u => u.email == jsTrim email) with
    | none => (.error ⟨.msg .USER_NOT_FOUND, HTTP_STATUS.UNPROCESSABLE_ENTITY⟩, db)
    | some user => (.ok user, db)

/-- `verifyForgotPasswordTokenValidator` (`users.middlewares.ts` lines
328–379): a missing or empty (trimmed) `forgot_password_token` throws
`FORGOT_PASSWORD_TOKEN_IS_REQUIRED` at 401; the token is verified under
`JWT_SECRET_FORGOT_PASSWORD_TOKEN`, a `JsonWebTokenError` being mapped by
the catch at line 366 to `USERS_MESSAGES.REFRESH_TOKEN_INVALID` at 401
(the refresh-flow message, exactly as the source has it); the subject user
is looked up by the decoded `user_id`, a `null` giving `USER_NOT_FOUND` at
401; finally the presented string must equal the user's stored
`forgot_password_token` exactly, a mismatch giving
`FORGOT_PASSWORD_TOKEN_IS_INVALID` at 401 (an `ErrorWithStatus`, passed
through the catch unchanged). -/
def verifyForgotPasswordTokenValidator (env : Env) (value : String) :
    Validator Unit := fun db =>
  let v := jsTrim value
  if v = "" then
    (.error ⟨.msg .FORGOT_PASSWORD_TOKEN_IS_REQUIRED, HTTP_STATUS.UNAUTHORIZED⟩, db)
  else
    match verifyToken v env.JWT_SECRET_FORGOT_PASSWORD_TOKEN with
    | .error _ => (.error ⟨.msg .REFRESH_TOKEN_INVALID, HTTP_STATUS.UNAUTHORIZED⟩, db)
    | .ok d =>
      match db.findOneUser (fun u => u._id == d.user_id) with
      | none => (.error ⟨.msg .USER_NOT_FOUND, HTTP_STATUS.UNAUTHORIZED⟩, db)
      | some user =>
        if user.forgot_password_token ≠ v then
          (.error ⟨.msg .FORGOT_PASSWORD_TOKEN_IS_INVALID, HTTP_STATUS.UNAUTHORIZED⟩, db)
        else (.ok (), db)

/-- Maximal-munch split of a character list at the characters satisfying
`p`, keeping empty pieces. -/
def splitWhen (p : Char → Bool) : List Char → List (List Char)
  | [] => [[]]
  | c :: cs =>
    let r := splitWhen p cs
    if p c then [] :: r
    else
      match r with
      | [] => [[c]]
      | h :: t => (c :: h) :: t

/-- The C9 claim's reading of the `Authorization` header: its nonempty
whitespace-separated chunks. -/
def wsChunks (s : String) : List String :=
  ((splitWhen Char.isWhitespace s.data).map (fun l => (⟨l⟩ : String))).filter
    (fun x => x ≠ "")

/-! ## Helper lemmas -/

/-- Left-cancellation for string concatenation. -/
theorem string_append_cancel_left {a b c : String} (h : a ++ b = a ++ c) : b = c := by
  rw [String.ext_iff] at h ⊢
  rw [String.data_append, String.data_append] at h
  exact List.append_cancel_left h

/-- The empty string is not a well-formed token under any secret. -/
theorem verifyToken_empty (secret : String) :
    verifyToken "" secret = .error .malformed := rfl

/-- A string that verifies under some secret is nonempty. -/
theorem verifyToken_ok_ne_empty {t s : String} {p : TokenPayload}
    (h : verifyToken t s = .ok p) : t ≠ "" := by
  intro he
  subst he
  simp [verifyToken_empty] at h

/-- A token whose verification succeeds under one secret fails with
`invalidSignature` under any other secret: the defense-in-depth layer of
spec §4.1. -/
theorem verifyToken_other_secret {t s₁ s₂ : String} {p : TokenPayload}
    (h : verifyToken t s₁ = .ok p) (hne : s₁ ≠ s₂) :
    verifyToken t s₂ = .error .invalidSignature := by
  unfold verifyToken at h ⊢
  cases hj : parseJwt t with
  | none => simp [hj] at h
  | some triple =>
    obtain ⟨uid, tag, sig⟩ := triple
    simp only [hj] at h ⊢
    cases hp : parseTokenType tag with
    | none => simp [hp] at h
    | some ty =>
      simp only [hp] at h ⊢
      by_cases h₁ : sig = "sig=" ++ s₁
      · have h₂ : sig ≠ "sig=" ++ s₂ := by
          intro h₂
          exact hne (string_append_cancel_left (h₁ ▸ h₂))
        simp [h₂]
      · simp [h₁] at h

/-- A list with no occurrence of the separator splits into a single piece. -/
theorem splitList_no_sep {sep : Char} :
    ∀ {l : List Char}, (∀ c ∈ l, c ≠ sep) → splitList sep l = [l] := by
  intro l
  induction l with
  | nil => intro _; rfl
  | cons c cs ih =>
    intro h
    have hc : c ≠ sep := h c (List.mem_cons_self ..)
    have hcs : splitList sep cs = [cs] := ih (fun x hx => h x (List.mem_cons_of_mem _ hx))
    simp [splitList, hc, hcs]

/-! ## Concrete fixtures for witnesses and counterexamples -/

/-- A concrete environment with the four (distinct, dot-free) secrets. -/
def env0 : Env := ⟨"sA", "sR", "sE", "sF"⟩

/-- A concrete refresh token for user `u1`. -/
def rTok : String := signToken ⟨"u1", .RefreshToken⟩ "sR"

/-- A concrete email-verify token for user `u1`. -/
def eTok : String := signToken ⟨"u1", .EmailVerifyToken⟩ "sE"

/-- A concrete forgot-password token for user `u1`. -/
def fTok : String := signToken ⟨"u1", .ForgotPasswordToken⟩ "sF"

/-- A concrete access token for user `u1`. -/
def aTok : String := signToken ⟨"u1", .AccessToken⟩ "sA"

/-- A concrete user record. -/
def u1 : User :=
  ⟨"u1", "Alice", "a@x.com", hashPassword "Aa1!aaaa", "2000-01-01", eTok, fTok⟩

/-- A concrete store: one user, one persisted refresh token. -/
def db0 : Database := ⟨[u1], [⟨rTok, "u1"⟩]⟩

/-- A token signed under the refresh secret but carrying the
`EmailVerifyToken` kind tag, for probing whether the refresh validator
inspects the tag. -/
def foreignTagTok : String := signToken ⟨"u1", .EmailVerifyToken⟩ "sR"

/-- A store whose refresh-token collection contains `foreignTagTok`. -/
def dbForeignTag : Database := ⟨[u1], [⟨foreignTagTok, "u1"⟩]⟩

/-- A store whose only user registered (out of band) a weak password: the
stored hash matches the hash of `"weak12"`. -/
def dbWeak : Database :=
  ⟨[⟨"u9", "Bob", "b@x.com", hashPassword "weak12", "2000-01-01", "", ""⟩], []⟩

/-! ## Claims -/

/-- C1: validation of a submitted refresh token succeeds exactly when both
the cryptographic verification under the refresh secret succeeds and the
literal (trimmed) token string is present in the refresh-token store; a
token whose signature verifies but that is absent from the store is
rejected with `REFRESH_TOKEN_IS_USED_OR_NOT_EXIST` at HTTP 401, and a
present token whose cryptographic verification fails is rejected with
`REFRESH_TOKEN_INVALID` at HTTP 401. -/
theorem refreshTokenValidator_requires_signature_and_store
    (env : Env) (db : Database) (value : String) :
    ((∃ p, (refreshTokenValidator env value db).1 = .ok p) ↔
      (∃ p, verifyToken (jsTrim value) env.JWT_SECRET_REFRESH_TOKEN = .ok p) ∧
        ∃ r ∈ db.refreshTokens, r.token = jsTrim value) ∧
    (∀ p, verifyToken (jsTrim value) env.JWT_SECRET_REFRESH_TOKEN = .ok p →
      (∀ r ∈ db.refreshTokens, r.token ≠ jsTrim value) →
      (refreshTokenValidator env value db).1 =
        .error ⟨.msg .REFRESH_TOKEN_IS_USED_OR_NOT_EXIST, HTTP_STATUS.UNAUTHORIZED⟩) ∧
    (∀ e, jsTrim value ≠ "" →
      verifyToken (jsTrim value) env.JWT_SECRET_REFRESH_TOKEN = .error e →
      (refreshTokenValidator env value db).1 =
        .error ⟨.msg .REFRESH_TOKEN_INVALID, HTTP_STATUS.UNAUTHORIZED⟩) := by
  refine ⟨⟨?_, ?_⟩, ?_, ?_⟩
  · rintro ⟨p, hp⟩
    simp only [refreshTokenValidator] at hp
    by_cases hv : jsTrim value = ""
    · simp [hv] at hp
    · rw [if_neg hv] at hp
      cases hver : verifyToken (jsTrim value) env.JWT_SECRET_REFRESH_TOKEN with
      | error e => simp [hver] at hp
      | ok d =>
        simp only [hver] at hp
        cases hfind : db.findOneRefreshToken (fun r => r.token == jsTrim value) with
        | none => simp [hfind] at hp
        | some r =>
          refine ⟨⟨d, rfl⟩, r, ?_, ?_⟩
          · exact List.mem_of_find?_eq_some hfind
          · have := List.find?_some hfind
            simpa using this
  · rintro ⟨⟨p, hver⟩, r, hmem, htok⟩
    have hv : jsTrim value ≠ "" := verifyToken_ok_ne_empty hver
    simp only [refreshTokenValidator]
    rw [if_neg hv]
    simp only [hver]
    have hsome : (db.findOneRefreshToken (fun r => r.token == jsTrim value)).isSome := by
      unfold Database.findOneRefreshToken
      exact List.find?_isSome.mpr ⟨r, hmem, by simp [htok]⟩
    obtain ⟨r', hr'⟩ := Option.isSome_iff_exists.mp hsome
    simp [hr']
  · intro p hver hnone
    have hv : jsTrim value ≠ "" := verifyToken_ok_ne_empty hver
    simp only [refreshTokenValidator]
    rw [if_neg hv]
    simp only [hver]
    have hfind : db.findOneRefreshToken (fun r => r.token == jsTrim value) = none := by
      unfold Database.findOneRefreshToken
      exact List.find?_eq_none.mpr (fun r hr => by simp [hnone r hr])
    simp [hfind]
  · intro e hv hver
    simp only [refreshTokenValidator]
    rw [if_neg hv]
    simp only [hver]

/-- Witness for C1: a token signed under the refresh secret for user `u2`
verifies cryptographically but is not in the store `db0`, and the validator
rejects it with `REFRESH_TOKEN_IS_USED_OR_NOT_EXIST` at 401. -/
theorem refreshTokenValidator_requires_signature_and_store_witness :
    (refreshTokenValidator env0 (signToken ⟨"u2", .RefreshToken⟩ "sR") db0).1 =
      .error ⟨.msg .REFRESH_TOKEN_IS_USED_OR_NOT_EXIST, HTTP_STATUS.UNAUTHORIZED⟩ :=
  (refreshTokenValidator_requires_signature_and_store env0 db0
      (signToken ⟨"u2", .RefreshToken⟩ "sR")).2.1
    ⟨"u2", .RefreshToken⟩ rfl (by decide)

/-- Counterexample to C2: `refreshTokenValidator` accepts a token that
verifies under the refresh secret and is present in the store even though
its payload's kind tag is `EmailVerifyToken`, not `RefreshToken` — the
validator never inspects `token_type`. -/
theorem refreshTokenValidator_accepts_foreign_kind_tag :
    (refreshTokenValidator env0 foreignTagTok dbForeignTag).1 =
      .ok ⟨"u1", .EmailVerifyToken⟩ ∧
    (⟨"u1", .EmailVerifyToken⟩ : TokenPayload).token_type ≠ .RefreshToken :=
  ⟨rfl, by decide⟩

/-- C2 amended: `refreshTokenValidator` enforces only cryptographic
verification under the refresh secret plus presence of the literal string
in the store; it accepts any such token regardless of the kind tag in its
payload.  (Genuinely minted email-verify tokens are still rejected, by the
distinct-secret layer — see the C5 theorem.) -/
theorem refreshTokenValidator_ignores_kind_tag
    (env : Env) (db : Database) (value : String) (p : TokenPayload)
    (hver : verifyToken (jsTrim value) env.JWT_SECRET_REFRESH_TOKEN = .ok p)
    (hmem : ∃ r ∈ db.refreshTokens, r.token = jsTrim value) :
    (refreshTokenValidator env value db).1 = .ok p := by
  obtain ⟨r, hr, htok⟩ := hmem
  have hv : jsTrim value ≠ "" := verifyToken_ok_ne_empty hver
  simp only [refreshTokenValidator]
  rw [if_neg hv]
  simp only [hver]
  have hsome : (db.findOneRefreshToken (fun r => r.token == jsTrim value)).isSome := by
    unfold Database.findOneRefreshToken
    exact List.find?_isSome.mpr ⟨r, hr, by simp [htok]⟩
  obtain ⟨r', hr'⟩ := Option.isSome_iff_exists.mp hsome
  simp [hr']

/-- Witness for the amended C2: the foreign-tag token of the counterexample,
accepted through the amended theorem. -/
theorem refreshTokenValidator_ignores_kind_tag_witness :
    (refreshTokenValidator env0 foreignTagTok dbForeignTag).1 =
      .ok ⟨"u1", .EmailVerifyToken⟩ :=
  refreshTokenValidator_ignores_kind_tag env0 dbForeignTag foreignTagTok
    ⟨"u1", .EmailVerifyToken⟩ rfl ⟨⟨foreignTagTok, "u1"⟩, by decide, by decide⟩

/-- C3: for a forgot-password token that decodes under the forgot-password
secret and whose subject user exists, `verifyForgotPasswordTokenValidator`
fails with `FORGOT_PASSWORD_TOKEN_IS_INVALID` at HTTP 401 exactly when the
presented (trimmed) token string differs from the `forgot_password_token`
stored on that user's record, and succeeds when the two are equal. -/
theorem verifyForgotPasswordTokenValidator_exact_match
    (env : Env) (db : Database) (value : String) (p : TokenPayload) (user : User)
    (hver : verifyToken (jsTrim value) env.JWT_SECRET_FORGOT_PASSWORD_TOKEN = .ok p)
    (hfind : db.findOneUser (fun u => u._id == p.user_id) = some user) :
    (user.forgot_password_token ≠ jsTrim value →
      (verifyForgotPasswordTokenValidator env value db).1 =
        .error ⟨.msg .FORGOT_PASSWORD_TOKEN_IS_INVALID, HTTP_STATUS.UNAUTHORIZED⟩) ∧
    (user.forgot_password_token = jsTrim value →
      (verifyForgotPasswordTokenValidator env value db).1 = .ok ()) := by
  have hv : jsTrim value ≠ "" := verifyToken_ok_ne_empty hver
  constructor
  · intro hne
    simp only [verifyForgotPasswordTokenValidator]
    rw [if_neg hv]
    simp [hver, hfind, hne]
  · intro heq
    simp only [verifyForgotPasswordTokenValidator]
    rw [if_neg hv]
    simp [hver, hfind, heq]

/-- Witness for C3: user `u1` stores `fTok`; presenting a different token
string that still decodes under the forgot-password secret and names `u1`
is rejected with `FORGOT_PASSWORD_TOKEN_IS_INVALID` at 401. -/
theorem verifyForgotPasswordTokenValidator_exact_match_witness :
    (verifyForgotPasswordTokenValidator env0
        (signToken ⟨"u1", .AccessToken⟩ "sF") db0).1 =
      .error ⟨.msg .FORGOT_PASSWORD_TOKEN_IS_INVALID, HTTP_STATUS.UNAUTHORIZED⟩ :=
  (verifyForgotPasswordTokenValidator_exact_match env0 db0
      (signToken ⟨"u1", .AccessToken⟩ "sF") ⟨"u1", .AccessToken⟩ u1 rfl rfl).1
    (by decide)

/-- C4, the code's behavior at the failing inputs: a syntactically present
but cryptographically invalid token makes `emailVerifyTokenValidator` and
`verifyForgotPasswordTokenValidator` both reject with
`USERS_MESSAGES.REFRESH_TOKEN_INVALID` at 401 — the refresh-flow message,
not a message specific to their own token kinds (`users.middlewares.ts`
lines 284 and 366). -/
theorem tokenValidators_cryptoError_uses_refresh_message :
    (emailVerifyTokenValidator env0 "not-a-jwt" db0).1 =
      .error ⟨.msg .REFRESH_TOKEN_INVALID, HTTP_STATUS.UNAUTHORIZED⟩ ∧
    (verifyForgotPasswordTokenValidator env0 "not-a-jwt" db0).1 =
      .error ⟨.msg .REFRESH_TOKEN_INVALID, HTTP_STATUS.UNAUTHORIZED⟩ ∧
    (.msg .REFRESH_TOKEN_INVALID : ErrMsg) ≠ .msg .FORGOT_PASSWORD_TOKEN_IS_INVALID :=
  ⟨rfl, rfl, by decide⟩

/-- C5: a token that verifies under the email-verify secret — in particular
any token minted with that secret — is rejected by `refreshTokenValidator`
with `REFRESH_TOKEN_INVALID` at 401, provided the email-verify and refresh
secrets are distinct, independently of the kind tag in the payload and of
the store contents. -/
theorem refreshTokenValidator_rejects_email_verify_secret
    (env : Env) (db : Database) (value : String) (p : TokenPayload)
    (hsec : env.JWT_SECRET_EMAIL_VERIFY_TOKEN ≠ env.JWT_SECRET_REFRESH_TOKEN)
    (hver : verifyToken (jsTrim value) env.JWT_SECRET_EMAIL_VERIFY_TOKEN = .ok p) :
    (refreshTokenValidator env value db).1 =
      .error ⟨.msg .REFRESH_TOKEN_INVALID, HTTP_STATUS.UNAUTHORIZED⟩ := by
  have hv : jsTrim value ≠ "" := verifyToken_ok_ne_empty hver
  have hbad := verifyToken_other_secret hver hsec
  simp only [refreshTokenValidator]
  rw [if_neg hv]
  simp [hbad]

/-- Witness for C5: the genuine email-verify token `eTok`, submitted to the
refresh validator under `env0`, is rejected with `REFRESH_TOKEN_INVALID`
at 401. -/
theorem refreshTokenValidator_rejects_email_verify_secret_witness :
    (refreshTokenValidator env0 eTok db0).1 =
      .error ⟨.msg .REFRESH_TOKEN_INVALID, HTTP_STATUS.UNAUTHORIZED⟩ :=
  refreshTokenValidator_rejects_email_verify_secret env0 db0 eTok
    ⟨"u1", .EmailVerifyToken⟩ (by decide) rfl

/-- Counterexample to C6: a user record exists whose email equals the
submitted email and whose stored password hash equals the hash of the
submitted password, yet `loginValidator` fails — the submitted password
does not pass the password field's `isStrongPassword` check, which also
runs.  So validation succeeding is not equivalent to such a record
existing. -/
theorem loginValidator_match_without_strong_password :
    (dbWeak.users.find?
        (fun u => u.email == "b@x.com" && u.password == hashPassword "weak12")).isSome
      = true ∧
    (loginValidator "b@x.com" "weak12" dbWeak).1 =
      .error ⟨.msg .PASSWORD_MUST_BE_STRONG, HTTP_STATUS.UNPROCESSABLE_ENTITY⟩ :=
  ⟨rfl, rfl⟩

/-- C6 amended: `loginValidator` succeeds exactly when the email passes the
syntactic email check, some user record matches the (trimmed) email and the
hash of the submitted password, and the password passes its own syntactic
checks (nonempty, length 6–50, strong); and whenever the email is
well-formed and no record matches, it fails with
`EMAIL_OR_PASSWORD_INCORRECT`. -/
theorem loginValidator_characterization (db : Database) (email password : String) :
    ((∃ u, (loginValidator email password db).1 = .ok u) ↔
      isEmailFormat email = true ∧
      (∃ u ∈ db.users, u.email = jsTrim email ∧ u.password = hashPassword password) ∧
      password ≠ "" ∧ 6 ≤ password.length ∧ password.length ≤ 50 ∧
      isStrongPassword password = true) ∧
    (isEmailFormat email = true →
      (∀ u ∈ db.users, ¬(u.email = jsTrim email ∧ u.password = hashPassword password)) →
      (loginValidator email password db).1 =
        .error ⟨.msg .EMAIL_OR_PASSWORD_INCORRECT, HTTP_STATUS.UNPROCESSABLE_ENTITY⟩) := by
  constructor
  · constructor
    · rintro ⟨u, hu⟩
      simp only [loginValidator] at hu
      by_cases he : isEmailFormat email = true
      · rw [if_neg (not_not_intro he)] at hu
        have hemail_ne : email ≠ "" := by
          intro h
          subst h
          exact absurd he (by decide)
        rw [if_neg hemail_ne] at hu
        cases hfind : db.findOneUser
            (fun u => u.email == jsTrim email && u.password == hashPassword password) with
        | none => simp [hfind] at hu
        | some u' =>
          simp only [hfind] at hu
          by_cases hp : password = ""
          · simp [hp] at hu
          · rw [if_neg hp] at hu
            by_cases hlen : 6 ≤ password.length ∧ password.length ≤ 50
            · rw [if_neg (not_not_intro hlen)] at hu
              by_cases hstr : isStrongPassword password = true
              · refine ⟨he, ⟨u', List.mem_of_find?_eq_some hfind, ?_⟩,
                  hp, hlen.1, hlen.2, hstr⟩
                have := List.find?_some hfind
                simpa using this
              · simp [hstr] at hu
            · rw [if_pos hlen] at hu
              simp at hu
      · rw [if_pos he] at hu
        simp at hu
    · rintro ⟨he, ⟨u, hmem, hueq, hupw⟩, hpne, hlen1, hlen2, hstrong⟩
      simp only [loginValidator]
      rw [if_neg (not_not_intro he)]
      have hemail_ne : email ≠ "" := by
        intro h
        subst h
        exact absurd he (by decide)
      rw [if_neg hemail_ne]
      have hsome : (db.findOneUser
          (fun u => u.email == jsTrim email && u.password == hashPassword password)).isSome := by
        unfold Database.findOneUser
        exact List.find?_isSome.mpr ⟨u, hmem, by simp [hueq, hupw]⟩
      obtain ⟨u', hu'⟩ := Option.isSome_iff_exists.mp hsome
      simp only [hu']
      rw [if_neg hpne, if_neg (not_not_intro ⟨hlen1, hlen2⟩),
        if_neg (not_not_intro hstrong)]
      exact ⟨u', rfl⟩
  · intro he hnone
    simp only [loginValidator]
    rw [if_neg (not_not_intro he)]
    have hemail_ne : email ≠ "" := by
      intro h
      subst h
      exact absurd he (by decide)
    rw [if_neg hemail_ne]
    have hfind : db.findOneUser
        (fun u => u.email == jsTrim email && u.password == hashPassword password) = none := by
      unfold Database.findOneUser
      exact List.find?_eq_none.mpr (fun u hu => by simpa using hnone u hu)
    simp [hfind]

/-- Witness for the amended C6: in `db0` no record matches the correct email
with a wrong password's hash, so login fails with
`EMAIL_OR_PASSWORD_INCORRECT`. -/
theorem loginValidator_characterization_witness :
    (loginValidator "a@x.com" "Bb2@bbbb" db0).1 =
      .error ⟨.msg .EMAIL_OR_PASSWORD_INCORRECT, HTTP_STATUS.UNPROCESSABLE_ENTITY⟩ :=
  (loginValidator_characterization db0 "a@x.com" "Bb2@bbbb").2 (by decide) (by decide)

/-- Counterexample to C7: a registration request whose email is already in
the store but whose `name` field is empty is rejected with
`NAME_IS_REQUIRED` (the name field fails first), not with
`EMAIL_ALREADY_EXISTS`. -/
theorem registerValidator_duplicate_email_not_always_that_message :
    (db0.users.any (fun u => u.email == jsTrim "a@x.com")) = true ∧
    (registerValidator "" "a@x.com" "Aa1!aaaa" "Aa1!aaaa" "2000-01-01" db0).1 =
      .error ⟨.msg .NAME_IS_REQUIRED, HTTP_STATUS.UNPROCESSABLE_ENTITY⟩ ∧
    (⟨.msg .NAME_IS_REQUIRED, HTTP_STATUS.UNPROCESSABLE_ENTITY⟩ : ErrorWithStatus) ≠
      ⟨.msg .EMAIL_ALREADY_EXISTS, HTTP_STATUS.UNPROCESSABLE_ENTITY⟩ :=
  ⟨rfl, rfl, by decide⟩

/-- C7 amended: for every registration request whose name field passes its
checks and whose email is well-formed, if the (trimmed) email is already
present in the user store then `registerValidator` rejects with
`EMAIL_ALREADY_EXISTS` and leaves the store — in particular the user
collection — unchanged. -/
theorem registerValidator_duplicate_email_rejected
    (db : Database) (name email password confirm_password date_of_birth : String)
    (hname : name ≠ "") (hlen : 1 ≤ name.length ∧ name.length ≤ 100)
    (he : isEmailFormat email = true)
    (hdup : ∃ u ∈ db.users, u.email = jsTrim email) :
    registerValidator name email password confirm_password date_of_birth db =
      (.error ⟨.msg .EMAIL_ALREADY_EXISTS, HTTP_STATUS.UNPROCESSABLE_ENTITY⟩, db) := by
  obtain ⟨u, hmem, hueq⟩ := hdup
  have hemail_ne : email ≠ "" := by
    intro h
    subst h
    exact absurd he (by decide)
  have hany : db.users.any (fun u => u.email == jsTrim email) = true :=
    List.any_eq_true.mpr ⟨u, hmem, by simp [hueq]⟩
  simp only [registerValidator]
  rw [if_neg hname, if_neg (not_not_intro hlen), if_neg (not_not_intro he),
    if_neg hemail_ne, if_pos hany]

/-- Witness for the amended C7: re-registering `a@x.com` with a valid name
is rejected with `EMAIL_ALREADY_EXISTS` and `db0` is returned unchanged. -/
theorem registerValidator_duplicate_email_rejected_witness :
    registerValidator "Alice" "a@x.com" "Aa1!aaaa" "Aa1!aaaa" "2000-01-01" db0 =
      (.error ⟨.msg .EMAIL_ALREADY_EXISTS, HTTP_STATUS.UNPROCESSABLE_ENTITY⟩, db0) :=
  registerValidator_duplicate_email_rejected db0 "Alice" "a@x.com" "Aa1!aaaa"
    "Aa1!aaaa" "2000-01-01" (by decide) (by decide) (by decide)
    ⟨u1, by decide, by decide⟩

/-- C8: the outcome of `accessTokenValidator` is independent of the store
state — it performs no database lookup — and it leaves the store
untouched. -/
theorem accessTokenValidator_store_independent
    (env : Env) (value : String) (db₁ db₂ : Database) :
    (accessTokenValidator env value db₁).1 = (accessTokenValidator env value db₂).1 ∧
    (accessTokenValidator env value db₁).2 = db₁ := by
  constructor
  · simp only [accessTokenValidator]
    split
    · rfl
    · split <;> rfl
  · simp only [accessTokenValidator]
    split
    · rfl
    · split <;> rfl

/-- Counterexample to C9: in the header `"Bearer  " ++ aTok` (two spaces)
the second whitespace-separated chunk is `aTok`, a token that verifies
under the access secret — so by the claim the validator would attempt and
accept it — yet `accessTokenValidator` rejects the header with
`ACCESS_TOKEN_IS_REQUIRED`: the source splits on single space characters
(`split(" ")`), and element 1 of that split is the empty string between
the two spaces. -/
theorem accessTokenValidator_double_space_rejected :
    (wsChunks (jsTrim ("Bearer  " ++ aTok))).getD 1 "" = aTok ∧
    verifyToken aTok env0.JWT_SECRET_ACCESS_TOKEN = .ok ⟨"u1", .AccessToken⟩ ∧
    (accessTokenValidator env0 ("Bearer  " ++ aTok) db0).1 =
      .error ⟨.msg .ACCESS_TOKEN_IS_REQUIRED, HTTP_STATUS.UNAUTHORIZED⟩ :=
  ⟨rfl, rfl, rfl⟩

/-- C9 amended: `accessTokenValidator` never checks the authorization
scheme: the credential attempted is element 1 of the trimmed header split
at single space characters, so (a) two headers with the same element 1
validate identically whatever their scheme words, and (b) a header whose
trimmed value contains no space at all — e.g. a valid token with no scheme
word in front — is rejected with `ACCESS_TOKEN_IS_REQUIRED` at 401. -/
theorem accessTokenValidator_scheme_never_checked
    (env : Env) (db : Database) (v₁ v₂ value : String) :
    (authCredential v₁ = authCredential v₂ →
      (accessTokenValidator env v₁ db).1 = (accessTokenValidator env v₂ db).1) ∧
    ((∀ c ∈ (jsTrim value).data, c ≠ ' ') →
      (accessTokenValidator env value db).1 =
        .error ⟨.msg .ACCESS_TOKEN_IS_REQUIRED, HTTP_STATUS.UNAUTHORIZED⟩) := by
  constructor
  · intro h
    simp only [accessTokenValidator, h]
  · intro h
    have hsplit : splitOnChar ' ' (jsTrim value) = [jsTrim value] := by
      unfold splitOnChar
      rw [splitList_no_sep h]
      rfl
    have hcred : authCredential value = "" := by
      unfold authCredential
      rw [hsplit]
      rfl
    simp only [accessTokenValidator, hcred]
    rfl

/-- Witness for the amended C9: a non-`Bearer` scheme word gives the same
outcome as `Bearer` for the same token, and the bare token `aTok` with no
scheme in front is rejected with `ACCESS_TOKEN_IS_REQUIRED`. -/
theorem accessTokenValidator_scheme_never_checked_witness :
    (accessTokenValidator env0 ("Basic " ++ aTok) db0).1 =
      (accessTokenValidator env0 ("Bearer " ++ aTok) db0).1 ∧
    (accessTokenValidator env0 aTok db0).1 =
      .error ⟨.msg .ACCESS_TOKEN_IS_REQUIRED, HTTP_STATUS.UNAUTHORIZED⟩ :=
  ⟨(accessTokenValidator_scheme_never_checked env0 db0 ("Basic " ++ aTok)
      ("Bearer " ++ aTok) "").1 rfl,
   (accessTokenValidator_scheme_never_checked env0 db0 "" "" aTok).2 (by decide)⟩

/-- C10: every validator of `users.middlewares.ts` is read-only on the
persisted state: whatever the outcome, the store after the run equals the
store before it — the middlewares only perform `findOne` lookups. -/
theorem validators_read_only
    (env : Env) (db : Database)
    (name email password confirm_password date_of_birth value : String) :
    (loginValidator email password db).2 = db ∧
    (registerValidator name email password confirm_password date_of_birth db).2 = db ∧
    (accessTokenValidator env value db).2 = db ∧
    (refreshTokenValidator env value db).2 = db ∧
    (emailVerifyTokenValidator env value db).2 = db ∧
    (forgotPassWordValidator email db).2 = db ∧
    (verifyForgotPasswordTokenValidator env value db).2 = db := by
  refine ⟨?_, ?_, ?_, ?_, ?_, ?_, ?_⟩ <;>
    simp only [loginValidator, registerValidator, accessTokenValidator,
      refreshTokenValidator, emailVerifyTokenValidator, forgotPassWordValidator,
      verifyForgotPasswordTokenValidator, apply_ite Prod.snd, ite_self] <;>
    (repeat' first | rfl | split)
